import Mathlib

set_option maxRecDepth 10000

/-!
Verification of the WhatsApp customer-support bot pipeline (`src/server.js`).

The JavaScript source is shallowly embedded: each source function becomes a
Lean function over an explicit store/environment state.  External effects
(Redis reads and writes, the support-script file read, the OpenAI completion
call, the WhatsApp delivery call) are modelled by explicit outcome parameters
carried in an `Env` record, so that a single execution of `getAIResponse`
corresponds to one concrete choice of outcomes.  Thrown JavaScript exceptions
are modelled with `Except` / explicit `thrown` constructors; a `try/catch`
block becomes a `match` on that outcome.
-/

namespace WhatsAppBot

/-- A chat message, as used in the OpenAI messages array and in the stored
conversation history: a role (system, user or assistant) and text content. -/
structure Message where
  role : String
  content : String
  deriving DecidableEq, Repr

/-- Token usage accounting returned by the completion backend
(`completion.usage`); only `total_tokens` is consumed by the pipeline. -/
structure Usage where
  total_tokens : Nat
  deriving DecidableEq, Repr

/-- The value cached under an `ai_response` key and returned by
`getAIResponse`: the reply text and its usage accounting. -/
structure RespData where
  content : String
  usage : Usage
  deriving DecidableEq, Repr

/-- A stored JSON string viewed through `JSON.parse`: `good a` is a string
that parses to `a` (as every string written by `JSON.stringify` does), and
`bad` is a corrupt entry on which `JSON.parse` throws. -/
inductive JsonStr (α : Type) where
  | good (a : α)
  | bad
  deriving DecidableEq, Repr

/-- Result of attempting `JSON.parse` on a stored string. -/
def JsonStr.parse {α : Type} : JsonStr α → Option α
  | .good a => some a
  | .bad => none

/-- The Redis key-value state visible to the pipeline, split by key prefix:
`cache k` models `ai_response:k`, `hist u` models `chat_history:u` and
`tok u` models `token_count:u`.  `none` is an absent key. -/
structure Store where
  cache : String → Option (JsonStr RespData)
  hist : String → Option (JsonStr (List Message))
  tok : String → Option Nat

/-- The store with no keys set. -/
def emptyStore : Store :=
  { cache := fun _ => none, hist := fun _ => none, tok := fun _ => none }

/-- The single conversation record assembled by `getConversationHistory`. -/
structure ConvHistory where
  messages : List Message
  tokenCount : Nat
  deriving DecidableEq, Repr

/-- Embedding of `getConversationHistory(userId)` (server.js lines 195-211),
parametrised by the outcomes of the two Redis reads: `.error` is a read that
throws.  The body reads both keys inside one `try`; the history string is fed
to `JSON.parse` (a `bad` string throws, landing in the same `catch`), the
token string through `parseInt` with default `0`.  The `catch` returns the
empty default, so the function itself never throws. -/
def getConversationHistory (histRead : Except Unit (Option (JsonStr (List Message))))
    (tokRead : Except Unit (Option Nat)) : ConvHistory :=
  match histRead, tokRead with
  | .ok h, .ok t =>
    match h with
    | some (.good m) => { messages := m, tokenCount := t.getD 0 }
    | some .bad => { messages := [], tokenCount := 0 }
    | none => { messages := [], tokenCount := t.getD 0 }
  | _, _ => { messages := [], tokenCount := 0 }

/-- The outcome of `redis.get(chat_history:userId)`: the stored value when the
read succeeds, `.error` when the read throws. -/
def readHist (st : Store) (readOk : Bool) (userId : String) :
    Except Unit (Option (JsonStr (List Message))) :=
  if readOk then .ok (st.hist userId) else .error ()

/-- The outcome of `redis.get(token_count:userId)`. -/
def readTok (st : Store) (readOk : Bool) (userId : String) :
    Except Unit (Option Nat) :=
  if readOk then .ok (st.tok userId) else .error ()

/-- `getConversationHistory` applied to the reads drawn from a store. -/
def getHistoryFromStore (st : Store) (histReadOk tokReadOk : Bool)
    (userId : String) : ConvHistory :=
  getConversationHistory (readHist st histReadOk userId) (readTok st tokReadOk userId)

/-- Embedding of `updateConversationHistory(userId, newMessages, tokenUsage)`
(server.js lines 214-235): re-reads the current state via
`getConversationHistory`, appends `newMessages`, adds `tokenUsage`, then
writes the history key and the token key in that order.  A failing write
throws; the `catch` logs and rethrows, so the error propagates to the caller.
The `.error` payload is the store after the side effects that happened before
the throw (the history write may have landed even when the token write
fails). -/
def updateConversationHistory (st : Store)
    (histReadOk tokReadOk histWriteOk tokWriteOk : Bool)
    (userId : String) (newMessages : List Message) (tokenUsage : Nat) :
    Except Store (Store × ConvHistory) :=
  let cur := getHistoryFromStore st histReadOk tokReadOk userId
  let updatedMessages := cur.messages ++ newMessages
  let updatedTokenCount := cur.tokenCount + tokenUsage
  if histWriteOk then
    let st1 : Store :=
      { st with hist := fun k => if k = userId then some (.good updatedMessages) else st.hist k }
    if tokWriteOk then
      let st2 : Store :=
        { st1 with tok := fun k => if k = userId then some updatedTokenCount else st1.tok k }
      .ok (st2, { messages := updatedMessages, tokenCount := updatedTokenCount })
    else .error st1
  else .error st

/-- The instruction suffix appended to the support-script file content
(server.js line 75). -/
def SCRIPT_SUFFIX : String :=
  "\n\nIMPORTANT: Keep all responses brief and concise. Aim for 2-3 sentences when possible. Only provide detailed explanations when absolutely necessary for technical support or safety-related issues."

/-- Embedding of `loadSupportScript()` (server.js lines 69-81), parametrised
by the outcome of the file read: on success it returns the system message
built from the file content, on failure it logs and rethrows. -/
def loadSupportScript (fileRead : Except Unit String) : Except Unit Message :=
  match fileRead with
  | .ok s => .ok { role := "system", content := s ++ SCRIPT_SUFFIX }
  | .error e => .error e

/-- The outcomes of the external effects touched by one call of
`getAIResponse`: whether each Redis read/write succeeds (a `false` flag is an
operation that throws), the support-script file read, and the completion
backend viewed as a function from the assembled messages array to either a
reply (content and usage) or a thrown error.  `updHistReadOk`/`updTokReadOk`
are the outcomes of the second history read performed inside
`updateConversationHistory`. -/
structure Env where
  cacheReadOk : Bool
  histReadOk : Bool
  tokReadOk : Bool
  scriptFile : Except Unit String
  backend : List Message → Except Unit (String × Usage)
  updHistReadOk : Bool
  updTokReadOk : Bool
  histWriteOk : Bool
  tokWriteOk : Bool
  cacheWriteOk : Bool

/-- The cache lookup at the top of `getAIResponse` (lines 243-251): read the
`ai_response` key and attempt `JSON.parse`; `none` stands for both a missing
key and a corrupt entry (the parse error is caught by the inner `try`, only a
warning is logged, and execution falls through to the full path). -/
def cacheLookup (st : Store) (userMessage : String) : Option RespData :=
  match st.cache userMessage with
  | some cell => cell.parse
  | none => none

/-- Outcome of the `try` block of `getAIResponse` (lines 241-296): either a
normal return or a thrown exception reaching the `catch`.  Both carry the
store as it stands at that point (side effects before a throw persist),
whether the completion backend was invoked, and the messages array sent to it
(`none` when the backend was never reached). -/
inductive TryOutcome where
  | ok (result : RespData) (st : Store) (backendCalled : Bool) (prompt : Option (List Message))
  | thrown (st : Store) (backendCalled : Bool) (prompt : Option (List Message))

/-- The `try` block of `getAIResponse(userMessage, userId)` (lines 238-296):
cache lookup; on hit return the parsed value immediately; otherwise fetch the
conversation history and the support script (`Promise.all`), assemble the
messages array `[supportScript, ...historyMessages, userMessage]`, call the
backend, append the user/assistant pair with the usage via
`updateConversationHistory`, write the response to the cache with a 1h TTL,
and return it.  Any throwing step becomes a `thrown` outcome. -/
def tryGetAIResponse (st : Store) (env : Env) (userMessage userId : String) :
    TryOutcome :=
  if env.cacheReadOk then
    match cacheLookup st userMessage with
    | some parsed => .ok parsed st false none
    | none =>
      match loadSupportScript env.scriptFile with
      | .error _ => .thrown st false none
      | .ok supportScript =>
        let hist := getHistoryFromStore st env.histReadOk env.tokReadOk userId
        let messageArray := supportScript :: hist.messages ++ [{ role := "user", content := userMessage }]
        match env.backend messageArray with
        | .error _ => .thrown st true (some messageArray)
        | .ok (response, usage) =>
          let newMessages : List Message :=
            [{ role := "user", content := userMessage },
             { role := "assistant", content := response }]
          match updateConversationHistory st env.updHistReadOk env.updTokReadOk
              env.histWriteOk env.tokWriteOk userId newMessages usage.total_tokens with
          | .error st1 => .thrown st1 true (some messageArray)
          | .ok (st1, _) =>
            let responseData : RespData := { content := response, usage := usage }
            if env.cacheWriteOk then
              let st2 : Store :=
                { st1 with cache := fun k =>
                    if k = userMessage then some (.good responseData) else st1.cache k }
              .ok responseData st2 true (some messageArray)
            else .thrown st1 true (some messageArray)
  else .thrown st false none

/-- The fixed apologetic fallback returned by the `catch` of `getAIResponse`
(lines 299-302), with zero usage. -/
def fallbackResp : RespData :=
  { content := "I apologize, but I\x27m having trouble accessing our support system right now. Please try again in a few moments.",
    usage := { total_tokens := 0 } }

/-- What one call of `getAIResponse` produces: the returned value, the store
afterwards, whether the backend was invoked, and the messages array sent to
it (if any). -/
structure CallResult where
  result : RespData
  store : Store
  backendCalled : Bool
  prompt : Option (List Message)

/-- Embedding of `getAIResponse(userMessage, userId)` (lines 238-304): the
`try` block wrapped by the `catch` that turns every thrown error into the
fixed fallback response.  Note the function is total: it never propagates an
error to its caller. -/
def getAIResponse (st : Store) (env : Env) (userMessage userId : String) :
    CallResult :=
  match tryGetAIResponse st env userMessage userId with
  | .ok r st1 b p => { result := r, store := st1, backendCalled := b, prompt := p }
  | .thrown st1 b p => { result := fallbackResp, store := st1, backendCalled := b, prompt := p }

/-- Outcome of one outbound WhatsApp API attempt, classified the way the
`catch` of `sendWhatsAppMessage` classifies it: success, the channel error
code 131030 (recipient not in the allowed list), a response status of 500 or
above, or any other error. -/
inductive SendOutcome where
  | success (data : String)
  | notAllowed
  | serverErr
  | otherErr
  deriving DecidableEq, Repr

/-- The error finally thrown out of `sendWhatsAppMessage`. -/
inductive SendErr where
  | notAuthorized
  | server
  | other
  deriving DecidableEq, Repr

deriving instance DecidableEq for Except

/-- What a whole `sendWhatsAppMessage` call performed: the final result, the
total number of attempts made against the API, and the backoff delays (in
milliseconds) slept between attempts. -/
structure SendResult where
  result : Except SendErr String
  attempts : Nat
  delays : List Nat
  deriving DecidableEq, Repr

/-- Embedding of the attempt/retry structure of
`sendWhatsAppMessage(to, message, retryCount)` (lines 84-141), parametrised
by the outcome of each attempt (`outcomes n` is the outcome of the attempt
made with `retryCount = n`).  An attempt is always performed first; on error:
code 131030 throws a distinct error immediately; a status of 500 or above
with `retryCount < 3` sleeps `2 ^ retryCount * 1000` ms and recurses with
`retryCount + 1`; anything else rethrows.  The rate-limiter gate that
precedes each attempt is modelled separately by `rateLimitGate`; here every
attempt is assumed to have been granted a slot. -/
def sendFrom (outcomes : Nat → SendOutcome) (retryCount : Nat) : SendResult :=
  match outcomes retryCount with
  | .success d => { result := .ok d, attempts := 1, delays := [] }
  | .notAllowed => { result := .error .notAuthorized, attempts := 1, delays := [] }
  | .otherErr => { result := .error .other, attempts := 1, delays := [] }
  | .serverErr =>
    if h : retryCount < 3 then
      let rest := sendFrom outcomes (retryCount + 1)
      { result := rest.result, attempts := rest.attempts + 1,
        delays := 2 ^ retryCount * 1000 :: rest.delays }
    else { result := .error .server, attempts := 1, delays := [] }
termination_by 3 - retryCount
decreasing_by omega

/-- Embedding of the `process_message` queue worker (lines 307-333): obtain
the AI response for the inbound text, then deliver it with
`sendWhatsAppMessage`; a thrown delivery error propagates and fails the job
(triggering the queue retry policy), otherwise the job completes.  The `ok`
payload is the content that was delivered. -/
def processMessageJob (st : Store) (env : Env) (sendOutcomes : Nat → SendOutcome)
    (sender messageText : String) : Except SendErr String :=
  let r := getAIResponse st env messageText sender
  match (sendFrom sendOutcomes 0).result with
  | .ok _ => .ok r.result.content
  | .error e => .error e

/-- `MESSAGE_WINDOW_MS` (line 59): the fixed outbound rate window, 1 second. -/
def MESSAGE_WINDOW_MS : Nat := 1000

/-- `MAX_MESSAGES_PER_WINDOW` (line 60): the WhatsApp business limit of 30
sends per window. -/
def MAX_MESSAGES_PER_WINDOW : Nat := 30

/-- `MAX_TOKENS` (line 65): the token ceiling named by the source. -/
def MAX_TOKENS : Nat := 120000

/-- `CONVERSATION_TTL` (line 66): 24 hours in seconds. -/
def CONVERSATION_TTL : Nat := 24 * 60 * 60

/-- The process-local rate-limiter counters (lines 61-62):
`messagesSentInWindow` and `windowStart` (a millisecond timestamp). -/
structure RateState where
  messagesSentInWindow : Nat
  windowStart : Nat
  deriving DecidableEq, Repr

/-- What one pass through the rate-limiting check does: either proceed to the
send (with the counters updated), or suspend the caller for `delayMs`
milliseconds and re-check (the state after the optional window reset is
carried along). -/
inductive GateStep where
  | proceed (s : RateState)
  | wait (delayMs : Nat) (s : RateState)
  deriving DecidableEq, Repr

/-- Embedding of the rate-limiting check at the top of `sendWhatsAppMessage`
(lines 87-99), for one call at time `now`: if more than `MESSAGE_WINDOW_MS`
has passed since `windowStart`, reset the counter and the window start; if
the counter has reached `MAX_MESSAGES_PER_WINDOW`, suspend for the remaining
window time `MESSAGE_WINDOW_MS - (now - windowStart)` and retry; otherwise
increment the counter and proceed with the send. -/
def rateLimitGate (s : RateState) (now : Nat) : GateStep :=
  let s1 := if now - s.windowStart > MESSAGE_WINDOW_MS
    then { messagesSentInWindow := 0, windowStart := now }
    else s
  if s1.messagesSentInWindow ≥ MAX_MESSAGES_PER_WINDOW then
    .wait (MESSAGE_WINDOW_MS - (now - s1.windowStart)) s1
  else
    .proceed { messagesSentInWindow := s1.messagesSentInWindow + 1,
               windowStart := s1.windowStart }

/-- The result seen by the `(i+1)`-th of a burst of send requests all issued
at the same instant `now`: the first `i` calls that proceed advance the
counters, and the call that finds the budget exhausted waits.  (Once some
call waits, its siblings issued at the same instant wait the same way, so
the first waiting call's `GateStep` is returned.) -/
def repeatGate (s : RateState) (now : Nat) : Nat → GateStep
  | 0 => rateLimitGate s now
  | i + 1 =>
    match rateLimitGate s now with
    | .proceed s1 => repeatGate s1 now i
    | .wait d s1 => .wait d s1

/-- One completed turn as built at lines 280-283 of `getAIResponse`: the
user message, the assistant reply, and the turn's `usage.total_tokens`. -/
def turnPair (t : String × String × Nat) : List Message :=
  [{ role := "user", content := t.1 },
   { role := "assistant", content := t.2.1 }]

/-- A sequence of successfully completed turns for one user: each turn calls
`updateConversationHistory` with the user/assistant pair and the turn's
usage, exactly as the success path of `getAIResponse` does, with every store
operation succeeding. -/
def runTurns (userId : String) : Store → List (String × String × Nat) → Store
  | st, [] => st
  | st, t :: rest =>
    match updateConversationHistory st true true true true userId (turnPair t) t.2.2 with
    | .ok (st1, _) => runTurns userId st1 rest
    | .error st1 => runTurns userId st1 rest

/-- Whether the `/dev/clear-redis` route is registered, as a function of the
process environment mode: the source (lines 409-417) registers the handler
unconditionally — nothing in `server.js` reads an environment mode — so this
is `true` for every mode, including production. -/
def devClearRedisRegistered (_mode : String) : Bool :=
  true

/-- The `/dev/clear-redis` handler body (lines 410-417): `redis.flushall()`
clears the entire store; on success respond 200 (the implicit express
status), on a thrown error respond 500 leaving the store as it was. -/
def devClearRedisHandler (st : Store) (flushOk : Bool) : Nat × Store :=
  if flushOk then (200, emptyStore) else (500, st)

/-! Concrete fixtures used to exercise the model on closed inputs. -/

/-- An environment in which every external operation succeeds: the script
file reads "SCRIPT" and the backend replies "REPLY" with 42 total tokens. -/
def envOk : Env :=
  { cacheReadOk := true, histReadOk := true, tokReadOk := true,
    scriptFile := .ok "SCRIPT",
    backend := fun _ => .ok ("REPLY", { total_tokens := 42 }),
    updHistReadOk := true, updTokReadOk := true,
    histWriteOk := true, tokWriteOk := true, cacheWriteOk := true }

/-- Like `envOk` but the history write inside `updateConversationHistory`
throws. -/
def envHistWriteFail : Env := { envOk with histWriteOk := false }

/-- Like `envOk` but the cache read at the top of `getAIResponse` throws. -/
def envCacheReadFail : Env := { envOk with cacheReadOk := false }

/-- Like `envOk` but the history read inside `getConversationHistory`
throws. -/
def envHistReadFail : Env := { envOk with histReadOk := false }

/-- A stored conversation of one old turn (the oldest messages). -/
def oldTurns : List Message :=
  [{ role := "user", content := "old question" },
   { role := "assistant", content := "old answer" }]

/-- A store for user "u" whose conversation already accounts 130000 tokens —
above `MAX_TOKENS` — with `oldTurns` as its stored history. -/
def bigStore : Store :=
  { cache := fun _ => none,
    hist := fun k => if k = "u" then some (.good oldTurns) else none,
    tok := fun k => if k = "u" then some 130000 else none }

/-- A store whose cached entry for "hello" is corrupt (fails `JSON.parse`). -/
def corruptStore : Store :=
  { cache := fun k => if k = "hello" then some .bad else none,
    hist := fun _ => none, tok := fun _ => none }

/-! Helper lemmas shared by the claim theorems. -/

/-- A throwing history read lands in the catch of `getConversationHistory`,
whatever the token read does. -/
theorem getConversationHistory_error_left (tr : Except Unit (Option Nat)) :
    getConversationHistory (.error ()) tr = { messages := [], tokenCount := 0 } := by
  cases tr <;> rfl

/-- A throwing token read lands in the catch of `getConversationHistory`,
whatever the history read returned. -/
theorem getConversationHistory_error_right
    (hr : Except Unit (Option (JsonStr (List Message)))) :
    getConversationHistory hr (.error ()) = { messages := [], tokenCount := 0 } := by
  cases hr <;> rfl

/-- A corrupt cache entry is a lookup miss (its parse yields nothing). -/
theorem cacheLookup_bad {st : Store} {msg : String} (h : st.cache msg = some .bad) :
    cacheLookup st msg = none := by
  simp [cacheLookup, h, JsonStr.parse]

/-- Whenever the `try` block of `getAIResponse` returns normally, the cache
holds the returned value under the raw input text: a cache hit returns the
entry that was found, and the full path has just written its response. -/
theorem tryOk_cache {st : Store} {env : Env} {T u : String} {r : RespData}
    {st1 : Store} {b : Bool} {p : Option (List Message)}
    (h : tryGetAIResponse st env T u = .ok r st1 b p) :
    st1.cache T = some (.good r) := by
  unfold tryGetAIResponse at h
  dsimp only at h
  split at h
  · split at h
    · rename_i parsed heq
      cases h
      unfold cacheLookup at heq
      split at heq
      · rename_i cell hcell
        cases cell with
        | good a => simp [JsonStr.parse] at heq; simp [hcell, heq]
        | bad => simp [JsonStr.parse] at heq
      · cases heq
    · split at h
      · simp at h
      · split at h
        · simp at h
        · split at h
          · simp at h
          · split at h
            · cases h
              simp
            · simp at h
  · simp at h

/-! Claim C1 — delivery retry ceiling. -/

/-- Claim C1 counterexample: a delivery call that fails with a server-side
(5xx) error on every attempt is attempted 4 times, not the 3 times the claim
states (the attempt runs before the `retryCount < 3` check, so retry counts
0, 1, 2 and 3 each perform an attempt). -/
theorem c1_retry_counterexample :
    (sendFrom (fun _ => SendOutcome.serverErr) 0).attempts = 4 ∧
    (sendFrom (fun _ => SendOutcome.serverErr) 0).attempts ≠ 3 := by
  constructor <;> simp [sendFrom]

/-- Claim C1 (amended): for every delivery call that fails on each attempt
with a server-side (5xx-equivalent) error, the send operation performs
exactly 4 attempts in total, with exponential backoff delays starting at 1
second and doubling between attempts (1s, 2s, 4s), and after the last
attempt the failure is propagated to the caller. -/
theorem c1_retry_behavior (outcomes : Nat → SendOutcome)
    (h : ∀ n, outcomes n = SendOutcome.serverErr) :
    sendFrom outcomes 0 =
      { result := .error .server, attempts := 4, delays := [1000, 2000, 4000] } := by
  simp [sendFrom, h 0, h 1, h 2, h 3]

/-- Witness for C1: the amended theorem applied to the all-5xx outcome. -/
theorem c1_retry_behavior_witness :
    sendFrom (fun _ => SendOutcome.serverErr) 0 =
      { result := .error .server, attempts := 4, delays := [1000, 2000, 4000] } :=
  c1_retry_behavior (fun _ => SendOutcome.serverErr) (fun _ => rfl)

/-! Claim C4 — the destructive clear-all-state endpoint. -/

/-- Claim C4 (code bug): the `/dev/clear-redis` route is registered whatever
the environment mode — the source never consults one — so in production mode
the handler is reachable and a successful call flushes the entire store. -/
theorem c4_clear_redis_unguarded :
    devClearRedisRegistered "production" = true ∧
    ∀ st : Store, devClearRedisHandler st true = (200, emptyStore) :=
  ⟨rfl, fun _ => rfl⟩

/-- Shape of every full-path execution of `getAIResponse` (cache read fine,
lookup a miss, script loaded): the backend is reached and the messages array
it receives is exactly the persona message, the entire stored history, and
the new user message — whatever the stored token count is, and however the
later steps turn out. -/
theorem getAIResponse_full_path_shape (st : Store) (env : Env) (msg uid : String)
    (s : Message) (hcr : env.cacheReadOk = true) (hmiss : cacheLookup st msg = none)
    (hs : loadSupportScript env.scriptFile = .ok s) :
    (getAIResponse st env msg uid).backendCalled = true ∧
    (getAIResponse st env msg uid).prompt =
      some (s :: (getHistoryFromStore st env.histReadOk env.tokReadOk uid).messages ++
        [{ role := "user", content := msg }]) := by
  unfold getAIResponse tryGetAIResponse
  dsimp only
  simp only [hcr, if_true, hmiss, hs]
  cases hb : env.backend (s :: (getHistoryFromStore st env.histReadOk env.tokReadOk uid).messages ++
      [{ role := "user", content := msg }]) with
  | error e => simp [hb]
  | ok pr =>
    rcases pr with ⟨resp, usg⟩
    simp only [hb]
    cases hu : updateConversationHistory st env.updHistReadOk env.updTokReadOk env.histWriteOk
        env.tokWriteOk uid [{ role := "user", content := msg },
          { role := "assistant", content := resp }] usg.total_tokens with
    | error st1 => simp [hu]
    | ok out =>
      rcases out with ⟨st1, ch⟩
      simp only [hu]
      by_cases hcw : env.cacheWriteOk <;> simp [hcw]

/-! Claim C3 — the token ceiling. -/

/-- Claim C3 counterexample: user "u" already has 130000 tokens of history
stored — above the 120000 ceiling — yet the assembled prompt still contains
the entire stored history, oldest turn included; nothing is dropped. -/
theorem c3_ceiling_counterexample :
    MAX_TOKENS = 120000 ∧
    (getHistoryFromStore bigStore true true "u").tokenCount = 130000 ∧
    MAX_TOKENS < (getHistoryFromStore bigStore true true "u").tokenCount ∧
    (getAIResponse bigStore envOk "new question" "u").prompt =
      some ({ role := "system", content := "SCRIPT" ++ SCRIPT_SUFFIX } :: oldTurns ++
        [{ role := "user", content := "new question" }]) := by
  refine ⟨rfl, rfl, by decide, rfl⟩

/-- Claim C3 (amended): `getAIResponse` enforces no token ceiling: whenever
the completion call is reached, the prompt is exactly the persona message,
the full stored history and the new user message, regardless of the stored
token count; `MAX_TOKENS` (declared as 120000) is never consulted and no
turn is ever dropped. -/
theorem c3_prompt_never_truncated (st : Store) (env : Env) (msg uid : String)
    (s : Message) (hcr : env.cacheReadOk = true) (hmiss : cacheLookup st msg = none)
    (hs : loadSupportScript env.scriptFile = .ok s) :
    (getAIResponse st env msg uid).prompt =
      some (s :: (getHistoryFromStore st env.histReadOk env.tokReadOk uid).messages ++
        [{ role := "user", content := msg }]) ∧
    MAX_TOKENS = 120000 :=
  ⟨(getAIResponse_full_path_shape st env msg uid s hcr hmiss hs).2, rfl⟩

/-- Witness for C3: the amended theorem applied to the over-budget store. -/
theorem c3_prompt_never_truncated_witness :
    (getAIResponse bigStore envOk "new question" "u").prompt =
      some ({ role := "system", content := "SCRIPT" ++ SCRIPT_SUFFIX } ::
        (getHistoryFromStore bigStore true true "u").messages ++
        [{ role := "user", content := "new question" }]) ∧
    MAX_TOKENS = 120000 :=
  c3_prompt_never_truncated bigStore envOk "new question" "u"
    { role := "system", content := "SCRIPT" ++ SCRIPT_SUFFIX } rfl rfl rfl

/-! Claim C2 — store write failure during a turn. -/

/-- Claim C2 counterexample: with the history write failing and delivery
succeeding, `updateConversationHistory` does throw, but `getAIResponse`
returns the fallback normally and the job completes, delivering the fallback
message — the job does not fail, contrary to the claim. -/
theorem c2_write_failure_counterexample :
    updateConversationHistory emptyStore true true false true "u1"
      (turnPair ("hello", "REPLY", 42)) 42 = .error emptyStore ∧
    (getAIResponse emptyStore envHistWriteFail "hello" "u1").result = fallbackResp ∧
    processMessageJob emptyStore envHistWriteFail (fun _ => SendOutcome.success "MSGID")
      "u1" "hello" = .ok fallbackResp.content := by
  refine ⟨rfl, rfl, ?_⟩
  have h : (getAIResponse emptyStore envHistWriteFail "hello" "u1").result = fallbackResp := rfl
  simp [processMessageJob, sendFrom, h]

/-- Claim C2 (amended): when a store write inside `updateConversationHistory`
fails, the error does propagate out of `updateConversationHistory`; but
`getAIResponse` catches it and returns the fixed fallback, so the job
handler receives a normal reply and the job completes with the fallback
delivered, instead of failing and being retried by the queue. -/
theorem c2_write_failure_absorbed (st : Store) (env : Env) (msg uid : String)
    (s : Message) (resp : String) (usg : Usage) (outs : Nat → SendOutcome) (d : String)
    (hcr : env.cacheReadOk = true)
    (hmiss : cacheLookup st msg = none)
    (hs : loadSupportScript env.scriptFile = .ok s)
    (hb : env.backend (s :: (getHistoryFromStore st env.histReadOk env.tokReadOk uid).messages ++
        [{ role := "user", content := msg }]) = .ok (resp, usg))
    (hw : env.histWriteOk = false ∨ env.tokWriteOk = false)
    (hsend : (sendFrom outs 0).result = .ok d) :
    (∃ st1, updateConversationHistory st env.updHistReadOk env.updTokReadOk env.histWriteOk
        env.tokWriteOk uid [{ role := "user", content := msg },
          { role := "assistant", content := resp }] usg.total_tokens = .error st1) ∧
    (getAIResponse st env msg uid).result = fallbackResp ∧
    processMessageJob st env outs uid msg = .ok fallbackResp.content := by
  have hupd : ∃ st1, updateConversationHistory st env.updHistReadOk env.updTokReadOk
      env.histWriteOk env.tokWriteOk uid [{ role := "user", content := msg },
        { role := "assistant", content := resp }] usg.total_tokens = .error st1 := by
    cases hhw : env.histWriteOk with
    | false => exact ⟨st, by simp [updateConversationHistory, hhw]⟩
    | true =>
      have htw : env.tokWriteOk = false := by
        rcases hw with hw | hw
        · rw [hhw] at hw; cases hw
        · exact hw
      have key : updateConversationHistory st env.updHistReadOk env.updTokReadOk
          true env.tokWriteOk uid [{ role := "user", content := msg },
            { role := "assistant", content := resp }] usg.total_tokens =
          .error { st with hist := fun k => (if k = uid then some (.good ((getHistoryFromStore st env.updHistReadOk env.updTokReadOk uid).messages ++ [{ role := "user", content := msg }, { role := "assistant", content := resp }])) else st.hist k) } := by
        simp [updateConversationHistory, hhw, htw]
      exact ⟨_, key⟩
  obtain ⟨st1, hupd⟩ := hupd
  have htry : tryGetAIResponse st env msg uid =
      .thrown st1 true (some (s :: (getHistoryFromStore st env.histReadOk env.tokReadOk uid).messages ++
        [{ role := "user", content := msg }])) := by
    unfold tryGetAIResponse
    dsimp only
    simp only [hcr, if_true, hmiss, hs, hb, hupd]
  have hget : (getAIResponse st env msg uid).result = fallbackResp := by
    simp [getAIResponse, htry]
  refine ⟨⟨st1, hupd⟩, hget, ?_⟩
  simp [processMessageJob, hsend, hget]

/-- Witness for C2: the amended theorem applied to a concrete turn whose
history write fails while delivery succeeds. -/
theorem c2_write_failure_absorbed_witness :
    (∃ st1, updateConversationHistory emptyStore true true false true "u1"
        [{ role := "user", content := "hello" }, { role := "assistant", content := "REPLY" }]
        42 = .error st1) ∧
    (getAIResponse emptyStore envHistWriteFail "hello" "u1").result = fallbackResp ∧
    processMessageJob emptyStore envHistWriteFail (fun _ => SendOutcome.success "MSGID")
      "u1" "hello" = .ok fallbackResp.content :=
  c2_write_failure_absorbed emptyStore envHistWriteFail "hello" "u1"
    { role := "system", content := "SCRIPT" ++ SCRIPT_SUFFIX } "REPLY"
    { total_tokens := 42 } (fun _ => SendOutcome.success "MSGID") "MSGID"
    rfl rfl rfl rfl (Or.inl rfl) (by simp [sendFrom])

/-! Claim C5 — idempotence of the response cache. -/

/-- Claim C5: after any call on raw text `T` that returns normally (and has
therefore left `{content, usage}` cached under `T`), a second call on `T`
within the TTL — by any user, equal or distinct — returns exactly the cached
value, does not invoke the completion backend, and leaves the store (history
and token counts included) unchanged. -/
theorem c5_cache_idempotent (st : Store) (env1 env2 : Env) (T u1 u2 : String)
    (hok : ∃ r st1 b p, tryGetAIResponse st env1 T u1 = TryOutcome.ok r st1 b p)
    (h2 : env2.cacheReadOk = true) :
    getAIResponse ((getAIResponse st env1 T u1).store) env2 T u2 =
      { result := (getAIResponse st env1 T u1).result,
        store := (getAIResponse st env1 T u1).store,
        backendCalled := false, prompt := none } := by
  obtain ⟨r, st1, b, p, h⟩ := hok
  have hcache : st1.cache T = some (.good r) := tryOk_cache h
  have h1 : getAIResponse st env1 T u1 =
      { result := r, store := st1, backendCalled := b, prompt := p } := by
    simp [getAIResponse, h]
  rw [h1]
  unfold getAIResponse tryGetAIResponse
  simp [h2, cacheLookup, hcache, JsonStr.parse]

/-- Witness for C5: the theorem applied to a first call in the all-succeeding
environment, with a different user for the second call. -/
theorem c5_cache_idempotent_witness :
    getAIResponse ((getAIResponse emptyStore envOk "hello" "u1").store) envOk "hello" "u2" =
      { result := (getAIResponse emptyStore envOk "hello" "u1").result,
        store := (getAIResponse emptyStore envOk "hello" "u1").store,
        backendCalled := false, prompt := none } :=
  c5_cache_idempotent emptyStore envOk envOk "hello" "u1" "u2" ⟨_, _, _, _, rfl⟩ rfl

/-! Claim C6 — history length and token accounting over successful turns. -/

/-- A successful `updateConversationHistory` (all store operations fine)
returns the appended history, and reading the store back afterwards sees
exactly the appended messages and the increased token count. -/
theorem updateConversationHistory_ok_reads (st : Store) (uid : String)
    (nm : List Message) (tu : Nat) :
    ∃ st1, updateConversationHistory st true true true true uid nm tu =
        .ok (st1, ⟨(getHistoryFromStore st true true uid).messages ++ nm,
          (getHistoryFromStore st true true uid).tokenCount + tu⟩) ∧
      getHistoryFromStore st1 true true uid =
        ⟨(getHistoryFromStore st true true uid).messages ++ nm,
          (getHistoryFromStore st true true uid).tokenCount + tu⟩ := by
  refine ⟨_, rfl, ?_⟩
  simp [getHistoryFromStore, readHist, readTok, getConversationHistory]

/-- Running a list of successful turns appends each turn's user/assistant
pair to the stored history and adds each turn's usage to the stored count. -/
theorem getHistory_runTurns (uid : String) :
    ∀ (turns : List (String × String × Nat)) (st : Store),
      getHistoryFromStore (runTurns uid st turns) true true uid =
        ⟨(getHistoryFromStore st true true uid).messages ++ (turns.map turnPair).flatten,
          (getHistoryFromStore st true true uid).tokenCount +
            (turns.map (fun t => t.2.2)).sum⟩ := by
  intro turns
  induction turns with
  | nil => intro st; simp [runTurns]
  | cons t rest ih =>
    intro st
    obtain ⟨st1, hupd, hread⟩ := updateConversationHistory_ok_reads st uid (turnPair t) t.2.2
    rw [show runTurns uid st (t :: rest) = runTurns uid st1 rest by
      simp only [runTurns, hupd]]
    rw [ih st1, hread]
    simp [List.append_assoc, Nat.add_assoc]

/-- The flattened turn pairs have twice as many messages as there are turns. -/
theorem turnPair_flatten_length (turns : List (String × String × Nat)) :
    ((turns.map turnPair).flatten).length = 2 * turns.length := by
  induction turns with
  | nil => simp
  | cons t rest ih =>
    simp [turnPair, ih]
    omega

/-- Claim C6: for every user, a sequence of N successfully completed turns
starting from an absent conversation leaves a stored history of exactly the
N user/assistant pairs in order — hence of even length 2N — and a stored
token count equal to the sum of the N turns' usage values. -/
theorem c6_history_accounting (uid : String) (turns : List (String × String × Nat)) :
    (getHistoryFromStore (runTurns uid emptyStore turns) true true uid).messages =
        (turns.map turnPair).flatten ∧
    (getHistoryFromStore (runTurns uid emptyStore turns) true true uid).messages.length =
        2 * turns.length ∧
    Even (getHistoryFromStore (runTurns uid emptyStore turns) true true uid).messages.length ∧
    (getHistoryFromStore (runTurns uid emptyStore turns) true true uid).tokenCount =
        (turns.map (fun t => t.2.2)).sum := by
  have hm : (getHistoryFromStore (runTurns uid emptyStore turns) true true uid).messages =
      (turns.map turnPair).flatten := by
    rw [getHistory_runTurns uid turns emptyStore]
    simp [getHistoryFromStore, readHist, readTok, getConversationHistory, emptyStore]
  have ht : (getHistoryFromStore (runTurns uid emptyStore turns) true true uid).tokenCount =
      (turns.map (fun t => t.2.2)).sum := by
    rw [getHistory_runTurns uid turns emptyStore]
    simp [getHistoryFromStore, readHist, readTok, getConversationHistory, emptyStore]
  refine ⟨hm, ?_, ?_, ht⟩
  · rw [hm, turnPair_flatten_length]
  · rw [hm, turnPair_flatten_length]
    exact ⟨turns.length, by omega⟩

/-! Claim C7 — the outbound rate limiter. -/

/-- One gate check issued at the very instant the window started: it proceeds
while the budget lasts and otherwise waits out the whole window. -/
theorem rateLimitGate_now (k t0 : Nat) :
    rateLimitGate ⟨k, t0⟩ t0 =
      if MAX_MESSAGES_PER_WINDOW ≤ k then .wait MESSAGE_WINDOW_MS ⟨k, t0⟩
      else .proceed ⟨k + 1, t0⟩ := by
  simp [rateLimitGate]

/-- Sequentially serving a burst issued at the window-start instant: the
state counts the calls served, and the call that exhausts the budget waits
out the full window. -/
theorem repeatGate_spec (i : Nat) :
    ∀ (k t0 : Nat), k + i ≤ MAX_MESSAGES_PER_WINDOW →
      repeatGate ⟨k, t0⟩ t0 i =
        if k + i < MAX_MESSAGES_PER_WINDOW then .proceed ⟨k + i + 1, t0⟩
        else .wait MESSAGE_WINDOW_MS ⟨MAX_MESSAGES_PER_WINDOW, t0⟩ := by
  induction i with
  | zero =>
    intro k t0 h
    rw [repeatGate, rateLimitGate_now]
    simp only [MAX_MESSAGES_PER_WINDOW, MESSAGE_WINDOW_MS] at *
    by_cases hk : 30 ≤ k
    · have : k = 30 := by omega
      subst this
      simp
    · have hlt : k < 30 := by omega
      simp [hk, hlt]
  | succ i ih =>
    intro k t0 h
    have hk : ¬ MAX_MESSAGES_PER_WINDOW ≤ k := by
      simp only [MAX_MESSAGES_PER_WINDOW] at *
      omega
    rw [repeatGate, rateLimitGate_now, if_neg hk]
    dsimp only
    rw [ih (k + 1) t0 (by omega)]
    have : k + 1 + i = k + (i + 1) := by omega
    rw [this]

/-- Claim C7: the outbound rate limiter never grants more than 30 sends per
fixed window — when the window has elapsed the counter and window start are
reset, and an exhausted budget suspends the caller for exactly the remaining
window time, so it resumes no earlier than windowStart + windowMs; in
particular, of 31 send requests issued at the same instant t0 with a fresh
window, the first 30 proceed and the 31st waits the full window duration,
completing no earlier than t0 + MESSAGE_WINDOW_MS. -/
theorem c7_rate_limiter :
    (∀ (s : RateState) (now : Nat), now - s.windowStart > MESSAGE_WINDOW_MS →
        rateLimitGate s now = .proceed ⟨1, now⟩) ∧
    (∀ (s : RateState) (now : Nat), s.windowStart ≤ now →
        ¬ now - s.windowStart > MESSAGE_WINDOW_MS →
        MAX_MESSAGES_PER_WINDOW ≤ s.messagesSentInWindow →
        rateLimitGate s now = .wait (MESSAGE_WINDOW_MS - (now - s.windowStart)) s ∧
        s.windowStart + MESSAGE_WINDOW_MS ≤ now + (MESSAGE_WINDOW_MS - (now - s.windowStart))) ∧
    (∀ (s : RateState) (now : Nat) (s1 : RateState),
        rateLimitGate s now = .proceed s1 →
        s1.messagesSentInWindow ≤ MAX_MESSAGES_PER_WINDOW) ∧
    (∀ (t0 i : Nat), i < MAX_MESSAGES_PER_WINDOW →
        repeatGate ⟨0, t0⟩ t0 i = .proceed ⟨i + 1, t0⟩) ∧
    (∀ t0 : Nat, repeatGate ⟨0, t0⟩ t0 MAX_MESSAGES_PER_WINDOW =
        .wait MESSAGE_WINDOW_MS ⟨MAX_MESSAGES_PER_WINDOW, t0⟩) := by
  refine ⟨?_, ?_, ?_, ?_, ?_⟩
  · intro s now h
    simp [rateLimitGate, h, MAX_MESSAGES_PER_WINDOW]
  · intro s now hws hno hfull
    constructor
    · simp [rateLimitGate, hno, hfull]
    · simp only [MESSAGE_WINDOW_MS] at *
      omega
  · intro s now s1 h
    simp only [rateLimitGate] at h
    split at h
    · split at h
      · simp at h
      · cases h
        simp [MAX_MESSAGES_PER_WINDOW]
    · split at h
      · simp at h
      · rename_i hbudget
        cases h
        simp only [MAX_MESSAGES_PER_WINDOW, not_le] at hbudget ⊢
        omega
  · intro t0 i h
    have := repeatGate_spec i 0 t0 (by omega)
    simpa [h] using this
  · intro t0
    have := repeatGate_spec MAX_MESSAGES_PER_WINDOW 0 t0 (by omega)
    simpa using this

/-- Witness for C7: concrete instances of each clause — a reset after an
elapsed window, a mid-window wait of the remaining 500ms, a granted call, and
the 31st instantaneous call waiting the full 1000ms window. -/
theorem c7_rate_limiter_witness :
    rateLimitGate ⟨5, 0⟩ 2000 = .proceed ⟨1, 2000⟩ ∧
    rateLimitGate ⟨30, 1000⟩ 1500 = .wait 500 ⟨30, 1000⟩ ∧
    repeatGate ⟨0, 7⟩ 7 3 = .proceed ⟨4, 7⟩ ∧
    repeatGate ⟨0, 7⟩ 7 30 = .wait 1000 ⟨30, 7⟩ :=
  ⟨c7_rate_limiter.1 ⟨5, 0⟩ 2000 (by decide),
   (c7_rate_limiter.2.1 ⟨30, 1000⟩ 1500 (by decide) (by decide) (by decide)).1,
   c7_rate_limiter.2.2.2.1 7 3 (by decide),
   c7_rate_limiter.2.2.2.2 7⟩

/-! Claim C8 — getAIResponse never fails its caller. -/

/-- Claim C8: `getAIResponse` never propagates an error: every execution of
its `try` block that throws (persona load, backend call, state update, cache
read or write — the history fetch itself cannot throw, it degrades to the
empty default) is caught and turned into the fixed apologetic fallback with
zero usage; consequently, whenever delivery succeeds, the job handler always
completes with the returned content — real reply or fallback — so the end
user never receives a raw error. -/
theorem c8_no_error_propagation :
    (∀ (st : Store) (env : Env) (msg uid : String) (st1 : Store) (b : Bool)
        (p : Option (List Message)),
        tryGetAIResponse st env msg uid = .thrown st1 b p →
        getAIResponse st env msg uid =
          { result := fallbackResp, store := st1, backendCalled := b, prompt := p }) ∧
    fallbackResp.usage.total_tokens = 0 ∧
    (∀ (st : Store) (env : Env) (outs : Nat → SendOutcome) (sender msg d : String),
        (sendFrom outs 0).result = .ok d →
        processMessageJob st env outs sender msg =
          .ok ((getAIResponse st env msg sender).result.content)) := by
  refine ⟨?_, rfl, ?_⟩
  · intro st env msg uid st1 b p h
    simp [getAIResponse, h]
  · intro st env outs sender msg d h
    simp [processMessageJob, h]

/-- Witness for C8: a throwing cache read yields the fallback, whose usage is
zero, and the job still completes delivering that content. -/
theorem c8_no_error_propagation_witness :
    getAIResponse emptyStore envCacheReadFail "hi" "u" =
      { result := fallbackResp, store := emptyStore, backendCalled := false, prompt := none } ∧
    fallbackResp.usage.total_tokens = 0 ∧
    processMessageJob emptyStore envCacheReadFail (fun _ => SendOutcome.success "MSGID") "u" "hi" =
      .ok ((getAIResponse emptyStore envCacheReadFail "hi" "u").result.content) :=
  ⟨c8_no_error_propagation.1 emptyStore envCacheReadFail "hi" "u" emptyStore false none rfl,
   c8_no_error_propagation.2.1,
   c8_no_error_propagation.2.2 emptyStore envCacheReadFail (fun _ => SendOutcome.success "MSGID")
     "u" "hi" "MSGID" (by simp [sendFrom])⟩

/-! Claim C9 — the history read is total and degrades to the empty default. -/

/-- Claim C9: `getConversationHistory` never fails its caller: an absent
history yields empty messages and a zero count, a throwing store read yields
the same empty default, and a turn whose history read throws proceeds — the
backend is still called, with the empty history in the prompt — instead of
failing. -/
theorem c9_history_read_total :
    getConversationHistory (.ok none) (.ok none) = { messages := [], tokenCount := 0 } ∧
    (∀ (hr : Except Unit (Option (JsonStr (List Message)))) (tr : Except Unit (Option Nat)),
        hr = .error () ∨ tr = .error () →
        getConversationHistory hr tr = { messages := [], tokenCount := 0 }) ∧
    (∀ (st : Store) (env : Env) (msg uid : String) (s : Message),
        env.cacheReadOk = true → cacheLookup st msg = none →
        env.histReadOk = false → loadSupportScript env.scriptFile = .ok s →
        (getAIResponse st env msg uid).backendCalled = true ∧
        (getAIResponse st env msg uid).prompt =
          some [s, { role := "user", content := msg }]) := by
  refine ⟨rfl, ?_, ?_⟩
  · intro hr tr h
    rcases h with h | h
    · subst h
      exact getConversationHistory_error_left tr
    · subst h
      exact getConversationHistory_error_right hr
  · intro st env msg uid s hcr hmiss hhist hs
    have h := getAIResponse_full_path_shape st env msg uid s hcr hmiss hs
    refine ⟨h.1, ?_⟩
    rw [h.2, hhist]
    have hempty : getHistoryFromStore st false env.tokReadOk uid =
        { messages := [], tokenCount := 0 } := by
      unfold getHistoryFromStore readHist
      simp [getConversationHistory_error_left]
    rw [hempty]
    rfl

/-- Witness for C9: a throwing history read alongside a live token key reads
as the empty default, and a turn in the history-read-failing environment
still calls the backend with just the persona and the new message. -/
theorem c9_history_read_total_witness :
    getConversationHistory (.error ()) (.ok (some 5)) = { messages := [], tokenCount := 0 } ∧
    (getAIResponse emptyStore envHistReadFail "hi" "u").backendCalled = true ∧
    (getAIResponse emptyStore envHistReadFail "hi" "u").prompt =
      some [{ role := "system", content := "SCRIPT" ++ SCRIPT_SUFFIX },
        { role := "user", content := "hi" }] :=
  ⟨c9_history_read_total.2.1 (.error ()) (.ok (some 5)) (Or.inl rfl),
   (c9_history_read_total.2.2 emptyStore envHistReadFail "hi" "u"
     { role := "system", content := "SCRIPT" ++ SCRIPT_SUFFIX } rfl rfl rfl rfl).1,
   (c9_history_read_total.2.2 emptyStore envHistReadFail "hi" "u"
     { role := "system", content := "SCRIPT" ++ SCRIPT_SUFFIX } rfl rfl rfl rfl).2⟩

/-! Claim C10 — a corrupt cache entry is treated as a miss. -/

/-- Claim C10: when the cached entry for the input text exists but fails to
parse, `getAIResponse` proceeds down the full completion path — the backend
is invoked, and on success the turn is appended to the stored history and the
corrupt cache entry is overwritten with the fresh serialized response — and
the fresh response, not the corrupt content and not an error, is returned. -/
theorem c10_corrupt_cache_recovery (st : Store) (env : Env) (msg uid : String)
    (s : Message) (resp : String) (usg : Usage)
    (hcr : env.cacheReadOk = true)
    (hbad : st.cache msg = some .bad)
    (hs : loadSupportScript env.scriptFile = .ok s)
    (hb : env.backend (s :: (getHistoryFromStore st env.histReadOk env.tokReadOk uid).messages ++
        [{ role := "user", content := msg }]) = .ok (resp, usg))
    (hw1 : env.histWriteOk = true) (hw2 : env.tokWriteOk = true)
    (hcw : env.cacheWriteOk = true) :
    (getAIResponse st env msg uid).backendCalled = true ∧
    (getAIResponse st env msg uid).result = { content := resp, usage := usg } ∧
    (getAIResponse st env msg uid).store.cache msg =
      some (.good { content := resp, usage := usg }) ∧
    (getAIResponse st env msg uid).store.hist uid =
      some (.good ((getHistoryFromStore st env.updHistReadOk env.updTokReadOk uid).messages ++
        [{ role := "user", content := msg }, { role := "assistant", content := resp }])) := by
  have hmiss : cacheLookup st msg = none := cacheLookup_bad hbad
  unfold getAIResponse tryGetAIResponse
  dsimp only
  simp only [hcr, if_true, hmiss, hs, hb]
  simp only [updateConversationHistory, hw1, hw2, if_true]
  simp [hcw]

/-- Witness for C10: recovery from the store whose entry for "hello" is
corrupt, in the all-succeeding environment. -/
theorem c10_corrupt_cache_recovery_witness :
    (getAIResponse corruptStore envOk "hello" "u").backendCalled = true ∧
    (getAIResponse corruptStore envOk "hello" "u").result =
      { content := "REPLY", usage := { total_tokens := 42 } } ∧
    (getAIResponse corruptStore envOk "hello" "u").store.cache "hello" =
      some (.good { content := "REPLY", usage := { total_tokens := 42 } }) ∧
    (getAIResponse corruptStore envOk "hello" "u").store.hist "u" =
      some (.good ((getHistoryFromStore corruptStore true true "u").messages ++
        [{ role := "user", content := "hello" }, { role := "assistant", content := "REPLY" }])) :=
  c10_corrupt_cache_recovery corruptStore envOk "hello" "u"
    { role := "system", content := "SCRIPT" ++ SCRIPT_SUFFIX } "REPLY"
    { total_tokens := 42 } rfl rfl rfl rfl rfl rfl rfl

end WhatsAppBot
